import Mathlib

/-!
Verification of the QueryVerse tabular-ingestion backend (backend.py).

Python strings are modelled as `List Char`; a file's decoded content is the
list of its lines (each line keeping its trailing newline, as Python's
`readlines` produces them). Fallible operations return `Option` or `Except`.
The pandas parsing routines are kept abstract (parameters of the pipeline);
all repository logic — the strategy chain, the manual line-repair path, the
extension check, column/table-name normalization and the drop-then-create
persistence step — is embedded concretely from the source.
-/

/-- Python strings are modelled as lists of characters. -/
abbrev Str := List Char

/-- Models Python's `str.split(sep)` for a single-character separator:
splitting the empty string yields one empty field, and consecutive
separators yield empty fields (backend.py lines 425 and 432). -/
def splitOnChar (sep : Char) : List Char → List (List Char)
  | [] => [[]]
  | c :: rest =>
    if c = sep then [] :: splitOnChar sep rest
    else
      match splitOnChar sep rest with
      | [] => [[c]]
      | f :: fs => (c :: f) :: fs

/-- Models Python's `sep.join(fields)` for a single-character separator
(backend.py line 437-438). -/
def joinOn (sep : Char) : List (List Char) → List Char
  | [] => []
  | [f] => f
  | f :: g :: t => f ++ sep :: joinOn sep (g :: t)

/-- Characters stripped by Python's `str.strip()` with no argument. -/
def pyWhitespace (c : Char) : Bool :=
  c = ' ' || c = '\t' || c = '\n' || c = '\r' || c = '\x0B' || c = '\x0C'

/-- Models Python's `str.strip()`: removes leading and trailing whitespace
(backend.py lines 425 and 432). -/
def pyStrip (s : Str) : Str :=
  ((s.dropWhile pyWhitespace).reverse.dropWhile pyWhitespace).reverse

/-- Comma splitting, as used by the manual repair path. -/
abbrev splitComma : Str → List Str := splitOnChar ','

/-- Comma joining, as used by the manual repair path. -/
abbrev joinComma : List Str → Str := joinOn ','

/-- Resolver output: ordered column names and ordered rows. Cell values are
kept as text (the CSV reader's raw fields); an empty text cell models a null
(pandas reads empty CSV fields as NaN). -/
structure Dataset where
  columns : List Str
  rows : List (List Str)
deriving DecidableEq

/-- Models pandas `DataFrame.empty` (backend.py line 481): true exactly when
some axis has length zero. -/
def dfEmpty (d : Dataset) : Bool :=
  d.rows.isEmpty || d.columns.isEmpty

/-- One configuration passed to `pd.read_csv`, from the `strategies` list at
backend.py lines 389-404. All fields are config data; the reader itself stays
abstract. -/
structure Strategy where
  encoding : String
  error_bad_lines : Option Bool
  warn_bad_lines : Option Bool
  sep : Option Char
  quotechar : Option Char
  on_bad_lines : Option String
  skipinitialspace : Option Bool
  header_none : Bool
deriving DecidableEq

/-- Strategy 1 at backend.py line 391: standard utf-8 reading. -/
def strategy1 : Strategy := ⟨"utf-8", none, none, none, none, none, none, false⟩

/-- Strategy 2 at backend.py line 392. -/
def strategy2 : Strategy := ⟨"latin-1", none, none, none, none, none, none, false⟩

/-- Strategy 3 at backend.py line 393. -/
def strategy3 : Strategy := ⟨"cp1252", none, none, none, none, none, none, false⟩

/-- Strategy 4 at backend.py line 395. -/
def strategy4 : Strategy := ⟨"utf-8", some false, some true, none, none, none, none, false⟩

/-- Strategy 5 at backend.py line 396. -/
def strategy5 : Strategy := ⟨"latin-1", some false, some true, none, none, none, none, false⟩

/-- Strategy 6 at backend.py line 398. -/
def strategy6 : Strategy := ⟨"utf-8", none, none, some ',', some '"', some "skip", none, false⟩

/-- Strategy 7 at backend.py line 399. -/
def strategy7 : Strategy := ⟨"latin-1", none, none, some ',', some '"', some "skip", none, false⟩

/-- Strategy 8 at backend.py line 401. -/
def strategy8 : Strategy := ⟨"utf-8", none, none, some ',', some '"', some "skip", some true, false⟩

/-- Strategy 9 at backend.py line 403: no header inference, bad lines skipped. -/
def strategy9 : Strategy := ⟨"utf-8", none, none, none, none, some "skip", none, true⟩

/-- The ordered strategy list of backend.py lines 389-404. -/
def strategies : List Strategy :=
  [strategy1, strategy2, strategy3, strategy4, strategy5, strategy6, strategy7,
   strategy8, strategy9]

/-- Models the `for i, strategy in enumerate(strategies)` loop of backend.py
lines 406-414: each attempt is tried in order, `some` models a call that
returns without raising and `break`s the loop, `none` models a raised
exception and `continue`. -/
def firstSuccess {β : Type} (f : Strategy → Option β) : List Strategy → Option β
  | [] => none
  | s :: rest =>
    match f s with
    | some v => some v
    | none => firstSuccess f rest

/-- Models one iteration of the manual repair loop, backend.py lines 431-442:
split the stripped line on commas; keep the raw line verbatim when the field
count matches; on excess, rejoin everything from position
`expected_cols - 1` into one trailing field and emit the rejoined line plus a
newline; on shortage, drop the line (`none`). -/
def fixLine (expected_cols : Nat) (line : Str) : Option Str :=
  let parts := splitComma (pyStrip line)
  if parts.length = expected_cols then some line
  else if parts.length > expected_cols then
    some (joinComma (parts.take (expected_cols - 1) ++
      [joinComma (parts.drop (expected_cols - 1))]) ++ ['\n'])
  else none

/-- Models backend.py lines 424-442: the header line is kept verbatim, its
comma-split field count becomes `expected_cols`, and every subsequent line is
repaired or dropped by `fixLine`. -/
def cleanedLines (lines : List Str) : List Str :=
  match lines with
  | [] => []
  | l0 :: rest =>
    let expected_cols := (splitComma (pyStrip l0)).length
    l0 :: rest.filterMap (fixLine expected_cols)

/-- Models pandas `read_csv` restricted to plain comma-separated text without
quoting: the first line's stripped comma-split fields are the columns, each
later line contributes one row, and the read fails unless every data line has
exactly the header's field count. Used only to instantiate the abstract
reader parameter in witnesses and counterexamples; the pipeline theorems keep
the reader abstract. -/
def parseStrict (lines : List Str) : Option Dataset :=
  match lines with
  | [] => none
  | h :: rest =>
    let cols := splitComma (pyStrip h)
    let rows := rest.map fun l => splitComma (pyStrip l)
    if rows.all fun r => r.length = cols.length then some ⟨cols, rows⟩ else none

/-- Instantiation of the abstract per-strategy reader used in witnesses: every
strategy reads like `parseStrict`. -/
def readCsvModel : Strategy → List Str → Option Dataset :=
  fun _ content => parseStrict content

/-- Instantiation of the abstract Excel reader used in witnesses: always
fails. -/
def readExcelModel : List Str → Option Dataset := fun _ => none

deriving instance DecidableEq for Except

/-- Error taxonomy of the upload route: `noFile` is the 400 at backend.py
line 364, `unsupportedFormat` the 400 at line 370, `malformedInput` the parse
failures at lines 458 and 468, `emptyDataset` the 400 at line 482, and
`persistenceError` the 500 at line 490. -/
inductive IngestError
  | noFile
  | unsupportedFormat
  | malformedInput
  | emptyDataset
  | persistenceError
deriving DecidableEq

/-- Outcome injected for the storage calls inside `create_raw_table`:
`failBeforeDrop` models an exception raised before the `DROP` at backend.py
line 88 (e.g. at `duckdb.connect`), `failAfterDrop` an exception raised after
the `DROP` committed but before the `CREATE` at line 92 completed, and `ok` a
run where every statement succeeds. -/
inductive PersistOutcome
  | failBeforeDrop
  | failAfterDrop
  | ok
deriving DecidableEq

/-- Models backend.py line 368: the declared extension is a dot followed by
the lower-cased last `'.'`-separated component of the filename. -/
def fileExt (filename : Str) : Str :=
  '.' :: ((splitOnChar '.' filename).getLastD []).map Char.toLower

/-- The allow-set of backend.py line 367. -/
def allowedExtensions : List Str := [".csv".data, ".xlsx".data, ".xls".data]

/-- Models backend.py line 78: a column name is lower-cased and then has
spaces, hyphens and periods replaced by underscores, in that order. -/
def normalizeCol (s : Str) : Str :=
  (((s.map Char.toLower).map fun c => if c = ' ' then '_' else c).map
    fun c => if c = '-' then '_' else c).map fun c => if c = '.' then '_' else c

/-- Models Python's `str.isalnum` for a single character. Exact on code
points up to U+00FF: ASCII digits and letters, the Latin-1 letters
U+00C0-U+00FF without the multiplication and division signs, and the Latin-1
numeric characters (ordinal indicators, superscripts, vulgar fractions,
micro sign). Code points above U+00FF are conservatively treated as
non-alphanumeric; every claim under audit only involves characters below
that bound. -/
def pyIsAlnum (c : Char) : Bool :=
  let n := c.toNat
  (48 ≤ n && n ≤ 57) || (65 ≤ n && n ≤ 90) || (97 ≤ n && n ≤ 122) ||
  n == 0xAA || n == 0xB2 || n == 0xB3 || n == 0xB5 || n == 0xB9 || n == 0xBA ||
  n == 0xBC || n == 0xBD || n == 0xBE ||
  (0xC0 ≤ n && n ≤ 0xFF && n != 0xD7 && n != 0xF7)

/-- Models the per-character sanitization at backend.py line 74: keep
alphanumeric characters and underscores, replace everything else with an
underscore. -/
def fixChar (c : Char) : Char :=
  if pyIsAlnum c || c = '_' then c else '_'

/-- Fuel-indexed scan implementing Python's `str.replace(pat, '')` for a
nonempty pattern `p :: ps`: leftmost occurrences are removed and scanning
resumes after each removed occurrence. The fuel (instantiated with the
string's length, which bounds the recursion depth) only makes the recursion
structural; it is never exhausted. -/
def removeAllF (p : Char) (ps : List Char) : Nat → List Char → List Char
  | _, [] => []
  | 0, s => s
  | fuel + 1, c :: rest =>
    if (p :: ps).isPrefixOf (c :: rest) then removeAllF p ps fuel (rest.drop ps.length)
    else c :: removeAllF p ps fuel rest

/-- Models Python's `str.replace(pat, '')` for the nonempty pattern
`p :: ps`, as used at backend.py line 73. -/
def removeAll (p : Char) (ps : List Char) (s : List Char) : List Char :=
  removeAllF p ps s.length s

/-- Models backend.py lines 73-74: lower-case the filename, strip the
substrings `.csv`, `.xlsx`, `.xls` in that order, then sanitize each
remaining character. -/
def cleanedName (filename : Str) : Str :=
  (removeAll '.' "xls".data
    (removeAll '.' "xlsx".data
      (removeAll '.' "csv".data (filename.map Char.toLower)))).map fixChar

/-- Models backend.py line 75: the derived table identity. -/
def table_name (filename : Str) : Str :=
  "raw_".data ++ cleanedName filename

/-- True when a cell is null: pandas reads an empty CSV field as NaN. -/
def isNullCell (c : Str) : Bool := c.isEmpty

/-- True when column `j` is null in every row. -/
def colAllNull (rows : List (List Str)) (j : Nat) : Bool :=
  rows.all fun r => isNullCell (r.getD j [])

/-- Models `df.dropna(axis=1, how='all')` at backend.py line 82: keep exactly
the columns that are not entirely null; every row keeps its position. -/
def dropAllNullCols (d : Dataset) : Dataset :=
  let ks := (List.range d.columns.length).filter fun j => !(colAllNull d.rows j)
  ⟨ks.map fun j => d.columns.getD j [], d.rows.map fun r => ks.map fun j => r.getD j []⟩

/-- The in-memory transformation applied by `create_raw_table` before
persisting (backend.py lines 78-85): normalize the column names, drop
entirely-null columns. The NaN-to-None rewrite at line 85 changes value
representation only and is the identity in this model. -/
def transformDf (d : Dataset) : Dataset :=
  dropAllNullCols ⟨d.columns.map normalizeCol, d.rows⟩

/-- Models `DataManager.create_raw_table` (backend.py lines 67-103) acting on
the persisted relation for the derived table identity. The state is the
relation's contents (`none` = relation absent). The `DROP TABLE IF EXISTS`
and `CREATE TABLE ... AS` statements at lines 88 and 92 run as two separate
autocommitted statements; `PersistOutcome` selects where an exception (if
any) is raised. Returns the new state and a success flag (an exception is
re-raised at line 103). -/
def create_raw_table (outcome : PersistOutcome) (df : Dataset)
    (st : Option Dataset) : Option Dataset × Bool :=
  match outcome with
  | PersistOutcome.failBeforeDrop => (st, false)
  | PersistOutcome.failAfterDrop => (none, false)
  | PersistOutcome.ok => (some (transformDf df), true)

/-- Models backend.py lines 417-458: the manual repair path. An empty file
makes `lines[0]` raise (caught at line 456); otherwise the cleaned lines are
written out and re-read by `pd.read_csv(temp_file, encoding='utf-8')` —
exactly the configuration of `strategy1`, so the abstract reader is reused. -/
def manualRepair (f : Strategy → List Str → Option Dataset)
    (content : List Str) : Option Dataset :=
  match content with
  | [] => none
  | l0 :: rest => f strategy1 (cleanedLines (l0 :: rest))

/-- Models the CSV branch of `upload_file` (backend.py lines 386-461):
try the strategies in order, fall back to the manual repair path when all of
them raised. The second component records whether the manual path ran
(mirroring the `if df is None` test at line 417). -/
def parseCSVStageT (f : Strategy → List Str → Option Dataset)
    (content : List Str) : Except IngestError Dataset × Bool :=
  match firstSuccess (fun s => f s content) strategies with
  | some df => (Except.ok df, false)
  | none =>
    match manualRepair f content with
    | some df => (Except.ok df, true)
    | none => (Except.error IngestError.malformedInput, true)

/-- Models the parse section of `upload_file` (backend.py lines 385-478):
CSV files go through the strategy chain, Excel files through the single
`pd.read_excel` attempt (kept abstract as `ex`). -/
def parseStage (f : Strategy → List Str → Option Dataset)
    (ex : List Str → Option Dataset) (filename : Str)
    (content : List Str) : Except IngestError Dataset :=
  if fileExt filename = ".csv".data then (parseCSVStageT f content).1
  else
    match ex content with
    | some df => Except.ok df
    | none => Except.error IngestError.malformedInput

/-- Models the `/upload` route `upload_file` (backend.py lines 356-518) as a
function of the abstract readers, the injected persistence outcome, the
filename, the decoded file content and the prior state of the persisted
relation for the derived identity. Returns the response (parsed dataset or
typed error) and the relation's posterior state. The empty-filename check,
the extension check, the parse section, the `df.empty` check and the
persistence hand-off appear in source order. -/
def upload_file (f : Strategy → List Str → Option Dataset)
    (ex : List Str → Option Dataset) (outcome : PersistOutcome)
    (filename : Str) (content : List Str) (st : Option Dataset) :
    Except IngestError Dataset × Option Dataset :=
  if filename = [] then (Except.error IngestError.noFile, st)
  else if fileExt filename ∈ allowedExtensions then
    match parseStage f ex filename content with
    | Except.error e => (Except.error e, st)
    | Except.ok df =>
      if dfEmpty df then (Except.error IngestError.emptyDataset, st)
      else
        match create_raw_table outcome df st with
        | (st', true) => (Except.ok df, st')
        | (st', false) => (Except.error IngestError.persistenceError, st')
  else (Except.error IngestError.unsupportedFormat, st)

theorem splitOnChar_ne_nil (sep : Char) (l : List Char) : splitOnChar sep l ≠ [] := by
  cases l with
  | nil => simp [splitOnChar]
  | cons c rest =>
    simp only [splitOnChar]
    split
    · simp
    · split <;> simp

theorem joinOn_cons (sep : Char) (x : List Char) (l : List (List Char)) (h : l ≠ []) :
    joinOn sep (x :: l) = x ++ sep :: joinOn sep l := by
  cases l with
  | nil => exact absurd rfl h
  | cons g t => rfl

theorem joinOn_splitOnChar (sep : Char) (l : List Char) :
    joinOn sep (splitOnChar sep l) = l := by
  induction l with
  | nil => rfl
  | cons c rest ih =>
    simp only [splitOnChar]
    split
    · rename_i hc
      rw [joinOn_cons sep [] (splitOnChar sep rest) (splitOnChar_ne_nil sep rest)]
      simp [hc, ih]
    · cases hs : splitOnChar sep rest with
      | nil => exact absurd hs (splitOnChar_ne_nil sep rest)
      | cons f fs =>
        rw [hs] at ih
        cases fs with
        | nil => simpa [joinOn] using ih
        | cons g t =>
          rw [joinOn_cons sep (c :: f) (g :: t) (by simp),
            List.cons_append, ← joinOn_cons sep f (g :: t) (by simp), ih]

theorem joinOn_take_drop (sep : Char) (k : Nat) (ps : List (List Char))
    (h : ps.drop k ≠ []) :
    joinOn sep (ps.take k ++ [joinOn sep (ps.drop k)]) = joinOn sep ps := by
  induction k generalizing ps with
  | zero => simp [joinOn]
  | succ k ih =>
    cases ps with
    | nil => simp at h
    | cons p pt =>
      simp only [List.take_succ_cons, List.drop_succ_cons] at *
      have hpt : pt ≠ [] := by
        intro he
        rw [he, List.drop_nil] at h
        exact h rfl
      rw [List.cons_append,
        joinOn_cons sep p (pt.take k ++ [joinOn sep (pt.drop k)]) (by simp),
        ih pt h, joinOn_cons sep p pt hpt]

/-- C9: in the manual repair path, for every line whose comma-split field
count exceeds the expected column count, the "fixed" line (first
`expected_cols - 1` fields, remainder rejoined with commas, all rejoined
with commas) is character-for-character the original stripped line (plus the
newline the code appends), so the rewrite changes nothing about how a strict
CSV parser will split that line. -/
theorem c9_merge_is_textual_identity (line : Str) (k : Nat)
    (h : k < (splitComma (pyStrip line)).length) :
    fixLine k line = some (pyStrip line ++ ['\n']) := by
  have hne : (splitComma (pyStrip line)).length ≠ k := Nat.ne_of_gt h
  have hd : (splitComma (pyStrip line)).drop (k - 1) ≠ [] := by
    intro he
    have hlen := congrArg List.length he
    simp only [List.length_drop, List.length_nil] at hlen
    omega
  simp only [fixLine]
  rw [if_neg hne, if_pos (show (splitComma (pyStrip line)).length > k from h)]
  exact congrArg (fun x => some (x ++ ['\n']))
    ((joinOn_take_drop ',' (k - 1) (splitComma (pyStrip line)) hd).trans
      (joinOn_splitOnChar ',' (pyStrip line)))

/-- Witness for C9 at the concrete line `1,2,3,4` with three expected
columns. -/
theorem c9_witness :
    fixLine 3 "1,2,3,4\n".data = some (pyStrip "1,2,3,4\n".data ++ ['\n']) :=
  c9_merge_is_textual_identity "1,2,3,4\n".data 3 (by decide)

/-- C1 (code bug evidence): on the file `a,b,c` / `1,2,3,4` the manual
repair path writes back exactly the original lines — the merge is a no-op —
and the merged text `3,4` is not among the comma-split fields of the
rewritten data line, so no strict re-parse of the cleaned file can produce a
cell holding the text `3,4`; in this model the strict re-parse fails
outright. The code logs "Fixed line" yet leaves the line unchanged. -/
theorem c1_repair_rewrite_is_noop :
    cleanedLines ["a,b,c\n".data, "1,2,3,4\n".data] =
      ["a,b,c\n".data, "1,2,3,4\n".data]
    ∧ ¬ ("3,4".data ∈ splitComma (pyStrip "1,2,3,4\n".data))
    ∧ parseStrict (cleanedLines ["a,b,c\n".data, "1,2,3,4\n".data]) = none := by
  decide

/-- C6: every data line with fewer comma-split fields than the header is
dropped by the repair path; concretely, for header `a,b,c` and single data
row `1,2`, the cleaned file keeps only the header and the re-parsed dataset
has `1 - 1 = 0` rows — one less than the raw data-line count. -/
theorem c6_short_rows_dropped (k : Nat) (line : Str)
    (h : (splitComma (pyStrip line)).length < k) :
    fixLine k line = none
    ∧ cleanedLines ["a,b,c\n".data, "1,2\n".data] = ["a,b,c\n".data]
    ∧ (parseStrict (cleanedLines ["a,b,c\n".data, "1,2\n".data])).map
        (fun d => d.rows.length) = some (["1,2\n".data].length - 1) := by
  refine ⟨?_, by decide, by decide⟩
  have h1 : (splitComma (pyStrip line)).length ≠ k := Nat.ne_of_lt h
  have h2 : ¬ ((splitComma (pyStrip line)).length > k) := by omega
  simp only [fixLine]
  rw [if_neg h1, if_neg h2]

/-- Witness for C6 at the concrete line `1,2` with three expected columns. -/
theorem c6_witness : fixLine 3 "1,2\n".data = none :=
  (c6_short_rows_dropped 3 "1,2\n".data (by decide)).1

/-- Spec-side reading of column normalization: stringify (identity on
strings), lower-case, then replace every space, hyphen and period with an
underscore. -/
def normalizeColSpec (s : Str) : Str :=
  (s.map Char.toLower).map fun c => if c = ' ' ∨ c = '-' ∨ c = '.' then '_' else c

theorem normalizeChar_step (a : Char) :
    (if (if (if a = ' ' then '_' else a) = '-' then '_'
        else if a = ' ' then '_' else a) = '.' then '_'
      else if (if a = ' ' then '_' else a) = '-' then '_'
        else if a = ' ' then '_' else a) =
    if a = ' ' ∨ a = '-' ∨ a = '.' then '_' else a := by
  by_cases h1 : a = ' '
  · subst h1; decide
  · by_cases h2 : a = '-'
    · subst h2; decide
    · by_cases h3 : a = '.'
      · subst h3; decide
      · simp [h1, h2, h3]

/-- C7: the code's column normalization agrees with the spec's description
for every column name, and the two literal examples hold. -/
theorem c7_normalize_columns :
    (∀ s : Str, normalizeCol s = normalizeColSpec s)
    ∧ normalizeCol "First Name".data = "first_name".data
    ∧ normalizeCol "Revenue-2023".data = "revenue_2023".data := by
  refine ⟨?_, by decide, by decide⟩
  intro s
  simp only [normalizeCol, normalizeColSpec, List.map_map]
  congr 1
  funext a
  simpa [Function.comp] using normalizeChar_step (Char.toLower a)

theorem firstSuccess_append_none {β : Type} (f : Strategy → Option β)
    (l1 l2 : List Strategy) (h : ∀ s ∈ l1, f s = none) :
    firstSuccess f (l1 ++ l2) = firstSuccess f l2 := by
  induction l1 with
  | nil => rfl
  | cons s t ih =>
    simp only [List.cons_append, firstSuccess, h s (by simp)]
    exact ih fun x hx => h x (by simp [hx])

theorem firstSuccess_eq_none_iff {β : Type} (f : Strategy → Option β)
    (l : List Strategy) :
    firstSuccess f l = none ↔ ∀ s ∈ l, f s = none := by
  induction l with
  | nil => simp [firstSuccess]
  | cons s t ih =>
    simp only [firstSuccess]
    cases hs : f s with
    | some v => simp [hs]
    | none => simpa [hs] using ih

/-- C3: with all attempts before `a` failing and `a` succeeding with `v`, the
chain returns `v` no matter what attempts follow (first success wins, later
attempts never tried); and the manual repair path runs exactly when every
strategy in the fixed list fails. -/
theorem c3_strategy_chain (f : Strategy → List Str → Option Dataset)
    (content : List Str) (l1 : List Strategy) (a : Strategy) (v : Dataset)
    (h1 : ∀ s ∈ l1, f s content = none) (h2 : f a content = some v) :
    (∀ l2 : List Strategy,
      firstSuccess (fun s => f s content) (l1 ++ a :: l2) = some v)
    ∧ ((parseCSVStageT f content).2 = true ↔
        ∀ s ∈ strategies, f s content = none) := by
  constructor
  · intro l2
    rw [firstSuccess_append_none (fun s => f s content) l1 (a :: l2) h1]
    simp [firstSuccess, h2]
  · simp only [parseCSVStageT]
    cases hfs : firstSuccess (fun s => f s content) strategies with
    | some df =>
      simp only [Bool.false_eq_true, false_iff]
      intro hall
      have hn := (firstSuccess_eq_none_iff (fun s => f s content) strategies).mpr hall
      rw [hfs] at hn
      exact Option.noConfusion hn
    | none =>
      have hall := (firstSuccess_eq_none_iff (fun s => f s content) strategies).mp hfs
      cases hm : manualRepair f content with
      | none => simpa using hall
      | some d => simpa using hall

/-- Witness for C3: a single always-succeeding attempt wins immediately. -/
theorem c3_witness :
    firstSuccess (fun _ => some (⟨["a".data], [["1".data]]⟩ : Dataset))
      [strategy1] = some ⟨["a".data], [["1".data]]⟩ :=
  (c3_strategy_chain (fun _ _ => some ⟨["a".data], [["1".data]]⟩) [] [] strategy1
    ⟨["a".data], [["1".data]]⟩ (by simp) rfl).1 []

/-- C4 counterexample: the filename `csv` contains no dot — its extension is
absent — yet the upload is not rejected with `unsupportedFormat`: the code
computes `'.' + 'csv'.lower()` from the last dot-split component and accepts
the file, which then parses and ingests successfully. -/
theorem c4_counterexample :
    ('.' ∉ "csv".data)
    ∧ (upload_file readCsvModel readExcelModel PersistOutcome.ok "csv".data
        ["a,b\n".data, "1,2\n".data] none).1 =
      Except.ok ⟨["a".data, "b".data], [["1".data, "2".data]]⟩
    ∧ Except.ok (⟨["a".data, "b".data], [["1".data, "2".data]]⟩ : Dataset) ≠
      (Except.error IngestError.unsupportedFormat : Except IngestError Dataset) := by
  decide

/-- C4 as amended: for every nonempty filename whose computed extension (dot
plus lower-cased last dot-split component) is outside the allow-set, the
upload fails with `unsupportedFormat`, and the outcome is independent of the
file content — no byte of content is examined. A dot-free filename equal to
`csv`, `xlsx` or `xls` is treated as having that extension. -/
theorem c4_amended_extension_gate (f : Strategy → List Str → Option Dataset)
    (ex : List Str → Option Dataset) (outcome : PersistOutcome)
    (filename : Str) (c1 c2 : List Str) (st : Option Dataset)
    (hne : filename ≠ []) (hext : fileExt filename ∉ allowedExtensions) :
    upload_file f ex outcome filename c1 st =
      (Except.error IngestError.unsupportedFormat, st)
    ∧ upload_file f ex outcome filename c1 st =
      upload_file f ex outcome filename c2 st := by
  have key : ∀ c : List Str, upload_file f ex outcome filename c st =
      (Except.error IngestError.unsupportedFormat, st) := by
    intro c
    simp only [upload_file]
    rw [if_neg hne, if_neg hext]
  exact ⟨key c1, (key c1).trans (key c2).symm⟩

/-- Witness for the amended C4 at the concrete filename `data.txt`. -/
theorem c4_amended_witness :
    upload_file readCsvModel readExcelModel PersistOutcome.ok "data.txt".data
      ["a\n".data] none = (Except.error IngestError.unsupportedFormat, none) :=
  (c4_amended_extension_gate readCsvModel readExcelModel PersistOutcome.ok
    "data.txt".data ["a\n".data] ["b\n".data] none (by decide) (by decide)).1

/-- C5: whenever the parse section returns a dataset that is empty (zero
rows or zero columns), the upload fails with `emptyDataset` and the
persisted relation is left exactly in its prior state. -/
theorem c5_empty_dataset_rejected (f : Strategy → List Str → Option Dataset)
    (ex : List Str → Option Dataset) (outcome : PersistOutcome)
    (filename : Str) (content : List Str) (st : Option Dataset) (df : Dataset)
    (hname : filename ≠ []) (hext : fileExt filename ∈ allowedExtensions)
    (hparse : parseStage f ex filename content = Except.ok df)
    (hempty : dfEmpty df = true) :
    upload_file f ex outcome filename content st =
      (Except.error IngestError.emptyDataset, st) := by
  simp [upload_file, hname, hext, hparse, hempty]

/-- Witness for C5: a header-only CSV parses to a zero-row dataset and is
rejected as empty, leaving the (absent) relation untouched. -/
theorem c5_witness :
    upload_file readCsvModel readExcelModel PersistOutcome.ok "t.csv".data
      ["a,b,c\n".data] none = (Except.error IngestError.emptyDataset, none) :=
  c5_empty_dataset_rejected readCsvModel readExcelModel PersistOutcome.ok
    "t.csv".data ["a,b,c\n".data] none ⟨["a".data, "b".data, "c".data], []⟩
    (by decide) (by decide) (by decide) (by decide)

/-- C2 counterexample: an ingestion whose `CREATE` step fails after the
`DROP` committed fails with `persistenceError` and leaves the relation
absent — neither untouched (it held a row before) nor fully replaced. -/
theorem c2_counterexample :
    upload_file readCsvModel readExcelModel PersistOutcome.failAfterDrop
      "t.csv".data ["a,b\n".data, "1,2\n".data]
      (some ⟨["x".data], [["9".data]]⟩) =
      (Except.error IngestError.persistenceError, none)
    ∧ (none : Option Dataset) ≠ some ⟨["x".data], [["9".data]]⟩ := by
  decide

/-- C2 as amended: after any upload the relation is in one of exactly three
states — untouched (every failure before the `DROP`, including all parse
failures), absent (a persistence failure between the `DROP` and the
`CREATE`, reported as `persistenceError`), or fully replaced by the new
dataset (success). No other partial state occurs. -/
theorem c2_amended_state_trichotomy (f : Strategy → List Str → Option Dataset)
    (ex : List Str → Option Dataset) (outcome : PersistOutcome)
    (filename : Str) (content : List Str) (st : Option Dataset) :
    (upload_file f ex outcome filename content st).2 = st
    ∨ ((upload_file f ex outcome filename content st).1 =
          Except.error IngestError.persistenceError
        ∧ (upload_file f ex outcome filename content st).2 = none)
    ∨ (∃ df : Dataset,
        (upload_file f ex outcome filename content st).1 = Except.ok df
        ∧ (upload_file f ex outcome filename content st).2 =
            some (transformDf df)) := by
  simp only [upload_file]
  split
  · left; rfl
  · split
    · split
      · left; rfl
      · split
        · left; rfl
        · cases outcome with
          | failBeforeDrop => simp [create_raw_table]
          | failAfterDrop => simp [create_raw_table]
          | ok =>
            rename_i df _ _
            right; right
            exact ⟨df, by simp [create_raw_table]⟩
    · left; rfl

/-- C8: a successful `create_raw_table` stores exactly the (normalized) new
dataset whatever relation previously existed under the derived identity: the
stored row count equals the new dataset's row count and the outcome does not
depend on the prior contents — replace, never append. -/
theorem c8_replace_semantics (prior : Option Dataset) (df : Dataset) :
    create_raw_table PersistOutcome.ok df prior = (some (transformDf df), true)
    ∧ (transformDf df).rows.length = df.rows.length
    ∧ ∀ prior2 : Option Dataset,
        create_raw_table PersistOutcome.ok df prior =
        create_raw_table PersistOutcome.ok df prior2 := by
  refine ⟨rfl, ?_, fun _ => rfl⟩
  simp [transformDf, dropAllNullCols]

/-- C10 counterexample: for the filename `café.csv` the derived table name is
`raw_café`, which contains `é` — kept because Python's `isalnum` is
Unicode-aware — and `é` is neither an ASCII alphanumeric character nor an
underscore. -/
theorem c10_counterexample :
    table_name "café.csv".data = "raw_café".data
    ∧ 'é' ∈ table_name "café.csv".data
    ∧ Char.isAlphanum 'é' = false
    ∧ 'é' ≠ '_' := by decide

/-- C10 as amended: for every filename the derived table name is the fixed
prefix `raw_` followed by characters that are each alphanumeric in Python's
Unicode-aware sense (modelled exactly up to U+00FF) or an underscore; the
derivation is a pure function of the filename alone. -/
theorem c10_amended_charset (filename : Str) :
    table_name filename = "raw_".data ++ cleanedName filename
    ∧ ∀ c ∈ cleanedName filename, pyIsAlnum c = true ∨ c = '_' := by
  refine ⟨rfl, ?_⟩
  intro c hc
  rcases List.mem_map.1 hc with ⟨x, _, rfl⟩
  simp only [fixChar]
  split
  · rename_i hb
    simpa using hb
  · exact Or.inr rfl

/-- Witness for the amended C10 at the concrete filename `data.csv`. -/
theorem c10_amended_witness : pyIsAlnum 'd' = true ∨ 'd' = '_' :=
  (c10_amended_charset "data.csv".data).2 'd' (by decide)
